import Mathlib

/-!
# PharmaSense — verification of the safety/coverage evaluation core

Shallow embedding of the deterministic core of the PharmaSense backend
(`backend/pharmasense/services/rules_engine_service.py`,
`formulary_service.py`, `prescription_service.py`, the relevant part of
`gemini_service.py`, and the DTOs in `backend/pharmasense/schemas/`).

Modelling conventions:
* Python strings are Lean `String`s; normalisation (`.lower()`, `.strip()`,
  substring `in`) is re-implemented over `List Char` so that everything
  kernel-reduces.  `Char.toLower`/`Char.toUpper` agree with Python on ASCII,
  which covers all drug names, severities and units used by the services.
* Python `float` values (doses, copays) are modelled as exact rationals `ℚ`.
  Every concrete arithmetic fact used below is exact in binary floating
  point as well (values such as 500, 0.5, 0.25).
* `UUID` keys are modelled as abstract `Nat` identifiers; `uuid.uuid4()` and
  `datetime.now()` results are passed in as explicit parameters.
* Raised exceptions become `Except` errors; the in-memory prescription store
  is threaded explicitly, and each operation returns the store as it stands
  at the moment the function returns or raises.
* Analytics emission and logging are external fire-and-forget collaborators
  and are not part of the embedded state.
-/

namespace PharmaSense

/-! ## Python string primitives -/

/-- Python `str.lower()` (character-wise; ASCII case mapping). -/
def pyLower (cs : List Char) : List Char := cs.map Char.toLower

/-- Python `str.upper()` (character-wise; ASCII case mapping). -/
def pyUpper (cs : List Char) : List Char := cs.map Char.toUpper

def isSpaceChar (c : Char) : Bool := c.isWhitespace

/-- Python `str.strip()`: drop whitespace from both ends. -/
def pyStrip (cs : List Char) : List Char :=
  ((cs.dropWhile isSpaceChar).reverse.dropWhile isSpaceChar).reverse

/-- The `.lower().strip()` normalisation applied to every name compared by
the services. -/
def norm (s : String) : List Char := pyStrip (pyLower s.data)

/-- Python substring test `needle in hay`. -/
def strIn (needle : List Char) : List Char → Bool
  | [] => needle.isPrefixOf []
  | c :: cs => needle.isPrefixOf (c :: cs) || strIn needle cs

/-! ## Rules engine DTOs (`schemas/rules_engine.py`) -/

inductive CheckType where
  | ALLERGY
  | DRUG_INTERACTION
  | DOSE_RANGE
  | DUPLICATE_THERAPY
  deriving DecidableEq, Repr

inductive CheckStatus where
  | PASS
  | FAIL
  | WARNING
  deriving DecidableEq, Repr

structure DrugInteractionData where
  drug_a : String
  drug_b : String
  severity : String
  description : String := ""
  deriving DecidableEq, Repr

structure DoseRangeData where
  medication_name : String
  min_dose_mg : ℚ
  max_dose_mg : ℚ
  unit : String := "mg"
  frequency : String := "once daily"
  deriving DecidableEq, Repr

structure RulesEngineInput where
  medication_name : String
  dosage : String := ""
  patient_allergies : List String := []
  current_medications : List String := []
  drug_interactions : List DrugInteractionData := []
  dose_ranges : List DoseRangeData := []
  deriving DecidableEq, Repr

structure SafetyCheckResult where
  check_type : CheckType
  status : CheckStatus
  medication_name : String
  details : String := ""
  blocking : Bool := false
  related_drug : Option String := none
  severity : Option String := none
  deriving DecidableEq, Repr

structure RulesEngineOutput where
  medication_name : String
  checks : List SafetyCheckResult := []
  has_blocking_failure : Bool := false
  overall_status : String := "PASS"
  deriving DecidableEq, Repr

/-! ## Drug-class cross-reactivity table (`rules_engine_service.py` §2.1) -/

/-- Embeds `DRUG_CLASS_MAP`: class name → member drugs (all literals lowercase, as in
the source).  Python stores the members in a `set`; membership and
intersection tests are order-independent, so a list is a faithful model. -/
def DRUG_CLASS_MAP : List (String × List String) := [
  ("penicillin",
    ["penicillin", "penicillin v", "penicillin g",
     "amoxicillin", "ampicillin", "piperacillin",
     "nafcillin", "oxacillin", "dicloxacillin",
     "amoxicillin/clavulanate", "augmentin"]),
  ("cephalosporin",
    ["cephalexin", "cefazolin", "ceftriaxone", "cefdinir",
     "cefuroxime", "ceftazidime", "cefepime"]),
  ("sulfonamide",
    ["sulfamethoxazole", "sulfasalazine", "trimethoprim/sulfamethoxazole",
     "bactrim", "septra", "sulfa"]),
  ("statin",
    ["atorvastatin", "simvastatin", "rosuvastatin",
     "lovastatin", "pravastatin", "fluvastatin", "pitavastatin"]),
  ("ace_inhibitor",
    ["lisinopril", "enalapril", "ramipril", "captopril",
     "benazepril", "fosinopril", "quinapril", "perindopril"]),
  ("arb",
    ["losartan", "valsartan", "irbesartan", "candesartan",
     "telmisartan", "olmesartan"]),
  ("nsaid",
    ["ibuprofen", "naproxen", "aspirin", "diclofenac",
     "celecoxib", "meloxicam", "indomethacin", "ketorolac"]),
  ("ssri",
    ["sertraline", "fluoxetine", "paroxetine",
     "citalopram", "escitalopram", "fluvoxamine"]),
  ("maoi",
    ["phenelzine", "tranylcypromine", "isocarboxazid", "selegiline"]),
  ("benzodiazepine",
    ["diazepam", "lorazepam", "alprazolam", "clonazepam",
     "midazolam", "temazepam"]),
  ("opioid",
    ["morphine", "oxycodone", "hydrocodone", "fentanyl",
     "tramadol", "codeine", "methadone", "buprenorphine"]),
  ("fluoroquinolone",
    ["ciprofloxacin", "levofloxacin", "moxifloxacin", "ofloxacin"]),
  ("macrolide",
    ["azithromycin", "erythromycin", "clarithromycin"]),
  ("thiazide",
    ["hydrochlorothiazide", "chlorthalidone", "indapamide"]),
  ("beta_blocker",
    ["metoprolol", "atenolol", "propranolol", "carvedilol",
     "bisoprolol", "nebivolol"])]

/-- Embeds `_get_drug_classes` via the precomputed `_DRUG_TO_CLASSES` index: the set
of class names whose (lowered) member list contains `.lower().strip()` of the
argument.  The index maps `member.lower()` to classes and is queried with
`name.lower().strip()`. -/
def getDrugClassesN (name : List Char) : List String :=
  (DRUG_CLASS_MAP.filter
    (fun p => p.2.any (fun m => pyLower m.data == pyStrip (pyLower name)))).map (·.1)

/-! ## Allergy check (`rules_engine_service.py` §2.1) -/

/-- The `allergy_lower in DRUG_CLASS_MAP` / `med_lower in DRUG_CLASS_MAP[allergy_lower]`
test of `_is_drug_class_allergy_match`: the allergy is itself a class key and
the drug is in its member set. -/
def allergyClassKeyHit (medLower allergyLower : List Char) : Bool :=
  match DRUG_CLASS_MAP.find? (fun p => p.1.data == allergyLower) with
  | some p => p.2.any (fun m => m.data == medLower)
  | none => false

/-- The `allergy_classes & med_classes` intersection test of
`_is_drug_class_allergy_match`. -/
def classIntersects (medLower allergyLower : List Char) : Bool :=
  (getDrugClassesN allergyLower).any (fun c => (getDrugClassesN medLower).contains c)

/-- Embeds `_is_drug_class_allergy_match`: (a) case-insensitive substring match in
either direction, (b) the allergy names a class whose member set contains the
drug, (c) allergy drug and proposed drug share at least one class.  The
source's sequence of early `return True`s is flattened into a disjunction of
the (pure) conditions, in order. -/
def isDrugClassAllergyMatch (medication allergy : String) : Bool :=
  strIn (norm allergy) (norm medication) || strIn (norm medication) (norm allergy)
    || allergyClassKeyHit (norm medication) (norm allergy)
    || classIntersects (norm medication) (norm allergy)

/-- Embeds `_check_allergies`: first matching allergy gives FAIL + blocking; no match
across all allergies gives a single PASS. -/
def checkAllergies (medication : String) : List String → SafetyCheckResult
  | [] =>
    { check_type := .ALLERGY, status := .PASS, medication_name := medication,
      details := "No allergy conflict detected" }
  | allergy :: rest =>
    if isDrugClassAllergyMatch medication allergy then
      { check_type := .ALLERGY, status := .FAIL, medication_name := medication,
        details := s!"Patient is allergic to {allergy}; {medication} is contraindicated",
        blocking := true, related_drug := some allergy }
    else
      checkAllergies medication rest

/-! ## Drug interaction check (`rules_engine_service.py` §2.2) -/

/-- The order-insensitive pair match
`(a == med and b == cur) or (a == cur and b == med)` on normalised names. -/
def matchedPair (medication current : String) (ix : DrugInteractionData) : Bool :=
  let a := norm ix.drug_a
  let b := norm ix.drug_b
  let m := norm medication
  let c := norm current
  (a == m && b == c) || (a == c && b == m)

/-- The result appended for one matching interaction record: severity
`SEVERE` (after `.upper()`) gives FAIL + blocking, `MODERATE` gives a
non-blocking WARNING, anything else (MILD or unrecognized) gives a
non-blocking WARNING with the MILD wording. -/
def interactionResult (medication current : String) (ix : DrugInteractionData) :
    SafetyCheckResult :=
  let severity := pyUpper ix.severity.data
  if severity == "SEVERE".data then
    { check_type := .DRUG_INTERACTION, status := .FAIL, medication_name := medication,
      details := s!"SEVERE interaction: {medication} + {current} — {ix.description}",
      blocking := true, related_drug := some current,
      severity := some (String.mk severity) }
  else if severity == "MODERATE".data then
    { check_type := .DRUG_INTERACTION, status := .WARNING, medication_name := medication,
      details := s!"MODERATE interaction: {medication} + {current} — {ix.description}",
      blocking := false, related_drug := some current,
      severity := some (String.mk severity) }
  else
    { check_type := .DRUG_INTERACTION, status := .WARNING, medication_name := medication,
      details := s!"MILD interaction: {medication} + {current} — {ix.description}",
      blocking := false, related_drug := some current,
      severity := some (String.mk severity) }

/-- The accumulation of the two nested loops in `_check_interactions`: outer
over current medications, inner over interaction records. -/
def interactionMatches (medication : String) (current_medications : List String)
    (interactions : List DrugInteractionData) : List SafetyCheckResult :=
  current_medications.flatMap (fun current =>
    (interactions.filter (matchedPair medication current)).map
      (interactionResult medication current))

/-- Embeds `_check_interactions`: every matching record yields its own result; if
nothing matched, a single PASS result is emitted. -/
def checkInteractions (medication : String) (current_medications : List String)
    (interactions : List DrugInteractionData) : List SafetyCheckResult :=
  let results := interactionMatches medication current_medications interactions
  if results.isEmpty then
    [{ check_type := .DRUG_INTERACTION, status := .PASS, medication_name := medication,
       details := "No drug interactions found" }]
  else
    results

/-! ## Dose parsing (`rules_engine_service.py` §2.3)

The regex `(\d+(?:\.\d+)?)\s*(mg|g|mcg|µg|ug)` with `re.IGNORECASE` and
`re.search` is embedded as a leftmost scan: at each position the pattern
must match one-or-more digits, an optional fraction, optional whitespace and
then the first unit alternative (in the order written in the source) whose
letters match case-insensitively.  Greedy matching with this tail never
benefits from backtracking (after giving back a digit the next character is
a digit, which no later pattern element accepts), so maximal munch is exact.
-/

def DOSE_UNITS : List String := ["mg", "g", "mcg", "µg", "ug"]

/-- Embeds `_UNIT_TO_MG` lookup applied to `m.group(2).lower()` (default 1.0). -/
def unitToMg : String → ℚ
  | "mg" => 1
  | "g" => 1000
  | "mcg" => 1 / 1000
  | "µg" => 1 / 1000
  | "ug" => 1 / 1000
  | _ => 1

/-- Try the unit alternatives in source order at the current position. -/
def matchUnitAt (cs : List Char) : Option String :=
  DOSE_UNITS.find? (fun u => pyLower (cs.take u.data.length) == u.data)

/-- One attempt of the dose pattern at a fixed position: digits, optional
`.digits` fraction, whitespace, then a unit.  Returns the integer digits,
fraction digits and matched unit (lowered). -/
def scanDoseAt (cs : List Char) : Option (List Char × List Char × String) :=
  let intSpan := cs.span (·.isDigit)
  if intSpan.1.isEmpty then
    none
  else
    let fracSpan : List Char × List Char :=
      match intSpan.2 with
      | '.' :: ds =>
        let f : List Char × List Char := ds.span (·.isDigit)
        if f.1.isEmpty then ([], intSpan.2) else f
      | _ => ([], intSpan.2)
    let rest := fracSpan.2.dropWhile isSpaceChar
    match matchUnitAt rest with
    | some u => some (intSpan.1, fracSpan.1, u)
    | none => none

/-- Embeds `re.search` leftmost semantics: try each start position left to right. -/
def searchDose : List Char → Option (List Char × List Char × String)
  | [] => none
  | c :: cs =>
    match scanDoseAt (c :: cs) with
    | some r => some r
    | none => searchDose cs

/-- Decimal digit-string value. -/
def digitsVal (cs : List Char) : Nat :=
  cs.foldl (fun acc c => acc * 10 + (c.toNat - 48)) 0

/-- Embeds `float(m.group(1))` for `digits(.digits)?`, as an exact rational. -/
def ratOfDigits (intDigits fracDigits : List Char) : ℚ :=
  (digitsVal intDigits : ℚ) + (digitsVal fracDigits : ℚ) / 10 ^ fracDigits.length

/-- Embeds `_parse_dose_to_mg`: extract the numeric dose and convert to mg. -/
def parseDoseToMg (dosage : String) : Option ℚ :=
  (searchDose dosage.data).map (fun r => ratOfDigits r.1 r.2.1 * unitToMg r.2.2)

/-! ## Dose range check (`rules_engine_service.py` §2.3) -/

/-- Embeds `_check_dose_range`: unparseable → non-blocking WARNING; no reference for
the drug (case-insensitive exact name match) → PASS; above max → FAIL +
blocking; below min → non-blocking WARNING; within range → PASS. -/
def checkDoseRange (medication dosage : String) (dose_ranges : List DoseRangeData) :
    SafetyCheckResult :=
  match parseDoseToMg dosage with
  | none =>
    { check_type := .DOSE_RANGE, status := .WARNING, medication_name := medication,
      details := s!"Could not parse dosage {dosage} — manual review recommended",
      blocking := false }
  | some dose_mg =>
    match dose_ranges.find? (fun dr => norm dr.medication_name == norm medication) with
    | none =>
      { check_type := .DOSE_RANGE, status := .PASS, medication_name := medication,
        details := s!"No dose range reference found for {medication} — skipping check" }
    | some matchedRange =>
      if dose_mg > matchedRange.max_dose_mg then
        { check_type := .DOSE_RANGE, status := .FAIL, medication_name := medication,
          details := s!"Dose {dose_mg}mg exceeds maximum {matchedRange.max_dose_mg}mg for {medication}",
          blocking := true }
      else if dose_mg < matchedRange.min_dose_mg then
        { check_type := .DOSE_RANGE, status := .WARNING, medication_name := medication,
          details := s!"Dose {dose_mg}mg is below minimum {matchedRange.min_dose_mg}mg for {medication} — may be sub-therapeutic",
          blocking := false }
      else
        { check_type := .DOSE_RANGE, status := .PASS, medication_name := medication,
          details := s!"Dose {dose_mg}mg is within range ({matchedRange.min_dose_mg}–{matchedRange.max_dose_mg}mg)" }

/-! ## Duplicate therapy check (`rules_engine_service.py` §2.4) -/

/-- Embeds `_check_duplicate_therapy`: exact name match → WARNING; shared drug class
→ WARNING naming one shared class (Python takes `next(iter(shared))` from a
set, whose order is unspecified; the model takes the first shared class in
table order); otherwise PASS.  The choice of named class only affects the
free-text detail. -/
def checkDuplicateTherapy (medication : String) : List String → SafetyCheckResult
  | [] =>
    { check_type := .DUPLICATE_THERAPY, status := .PASS, medication_name := medication,
      details := "No duplicate therapy detected" }
  | current :: rest =>
    if norm current == norm medication then
      { check_type := .DUPLICATE_THERAPY, status := .WARNING, medication_name := medication,
        details := s!"Patient already taking {current} — duplicate prescription",
        blocking := false, related_drug := some current }
    else
      match ((getDrugClassesN (norm medication)).filter
          (fun c => (getDrugClassesN (norm current)).contains c)).head? with
      | some class_name =>
        { check_type := .DUPLICATE_THERAPY, status := .WARNING, medication_name := medication,
          details := s!"Patient already taking {current} (same class: {class_name}) — possible duplicate therapy",
          blocking := false, related_drug := some current }
      | none => checkDuplicateTherapy medication rest

/-! ## Public rules-engine interface (`RulesEngineService.evaluate`) -/

/-- Embeds `RulesEngineService.evaluate`: runs the four checks in order, derives
`has_blocking_failure` as the OR of the checks' blocking flags and the
overall status by the priority BLOCKED > WARNING > PASS. -/
def evaluate (input_data : RulesEngineInput) : RulesEngineOutput :=
  let checks :=
    [checkAllergies input_data.medication_name input_data.patient_allergies]
    ++ checkInteractions input_data.medication_name input_data.current_medications
         input_data.drug_interactions
    ++ [checkDoseRange input_data.medication_name input_data.dosage input_data.dose_ranges]
    ++ [checkDuplicateTherapy input_data.medication_name input_data.current_medications]
  let has_blocking := checks.any (·.blocking)
  let has_warning := checks.any (fun c => c.status == CheckStatus.WARNING)
  let overall := if has_blocking then "BLOCKED" else if has_warning then "WARNING" else "PASS"
  { medication_name := input_data.medication_name,
    checks := checks,
    has_blocking_failure := has_blocking,
    overall_status := overall }

/-! ## Formulary service DTOs (`schemas/formulary_service.py`) -/

inductive CoverageStatus where
  | COVERED
  | NOT_COVERED
  | PRIOR_AUTH_REQUIRED
  | UNKNOWN
  deriving DecidableEq, Repr

structure FormularyEntryData where
  drug_name : String
  generic_name : String := ""
  plan_name : String := ""
  tier : Int := 1
  copay : ℚ := 0
  is_covered : Bool := true
  requires_prior_auth : Bool := false
  quantity_limit : String := ""
  step_therapy_required : Bool := false
  notes : String := ""
  deriving DecidableEq, Repr

structure CoverageResult where
  medication_name : String
  status : CoverageStatus
  tier : Option Int := none
  tier_label : Option String := none
  copay : Option ℚ := none
  is_covered : Bool := false
  requires_prior_auth : Bool := false
  plan_name : String := ""
  notes : String := ""
  deriving DecidableEq, Repr

structure AlternativeSuggestion where
  drug_name : String
  generic_name : String := ""
  tier : Int := 1
  copay : ℚ := 0
  reason : String := ""
  deriving DecidableEq, Repr

/-- Embeds `TIER_LABELS.get`: the fixed 1–5 label table. -/
def TIER_LABELS : Int → Option String
  | 1 => some "Preferred Generic"
  | 2 => some "Non-Preferred Generic"
  | 3 => some "Preferred Brand"
  | 4 => some "Non-Preferred Brand"
  | 5 => some "Specialty"
  | _ => none

/-- Python `a or b` on strings: `a` if non-empty, else `b`. -/
def strOr (a b : String) : String := if a == "" then b else a

/-! ## Formulary service (`formulary_service.py`) -/

/-- The per-row match of `lookup_coverage`'s loop: within one row the drug
name is compared first and the generic name second (the generic comparison is
skipped when the queried generic name is empty); the loop breaks on the first
row where either comparison hits. -/
def formularyRowMatches (medLower genLower : List Char) (entry : FormularyEntryData) : Bool :=
  norm entry.drug_name == medLower
    || (!genLower.isEmpty && norm entry.generic_name == genLower)

/-- Embeds `FormularyService.lookup_coverage`. -/
def lookupCoverage (medication_name : String) (formulary : List FormularyEntryData)
    (generic_name : String) (plan_name : String) : CoverageResult :=
  let medLower := norm medication_name
  let genLower := norm generic_name
  match formulary.find? (formularyRowMatches medLower genLower) with
  | none =>
    { medication_name := medication_name, status := .UNKNOWN,
      plan_name := plan_name, notes := "Medication not found in formulary" }
  | some m =>
    if !m.is_covered then
      { medication_name := medication_name, status := .NOT_COVERED,
        tier := some m.tier, tier_label := TIER_LABELS m.tier, copay := none,
        is_covered := false, requires_prior_auth := m.requires_prior_auth,
        plan_name := strOr m.plan_name plan_name, notes := m.notes }
    else if m.requires_prior_auth then
      { medication_name := medication_name, status := .PRIOR_AUTH_REQUIRED,
        tier := some m.tier, tier_label := TIER_LABELS m.tier, copay := some m.copay,
        is_covered := true, requires_prior_auth := true,
        plan_name := strOr m.plan_name plan_name, notes := m.notes }
    else
      { medication_name := medication_name, status := .COVERED,
        tier := some m.tier, tier_label := TIER_LABELS m.tier, copay := some m.copay,
        is_covered := true, requires_prior_auth := false,
        plan_name := strOr m.plan_name plan_name, notes := m.notes }

/-- Embeds `FormularyService.find_alternatives`: covered rows whose drug and generic
names both differ from the query, sorted ascending by `(tier, copay)`
(lexicographic, as Python sorts tuples; `list.sort` and `mergeSort` are both
stable), truncated to `max_results`.  The `plan_name` argument of the source
is accepted and unused there as well. -/
def findAlternatives (medication_name : String) (formulary : List FormularyEntryData)
    (max_results : Nat) : List AlternativeSuggestion :=
  let medLower := norm medication_name
  let covered := formulary.filter (fun e =>
    e.is_covered && norm e.drug_name != medLower && norm e.generic_name != medLower)
  let sorted := covered.mergeSort (fun a b =>
    decide (a.tier < b.tier ∨ (a.tier = b.tier ∧ a.copay ≤ b.copay)))
  (sorted.take max_results).map (fun entry =>
    let tier_label := (TIER_LABELS entry.tier).getD s!"Tier {entry.tier}"
    { drug_name := entry.drug_name, generic_name := entry.generic_name,
      tier := entry.tier, copay := entry.copay,
      reason := s!"{tier_label}, estimated copay ${entry.copay}" })

/-! ## Exceptions (`exceptions.py`)

`ValidationError.__init__(self, message, field=None)` accepts exactly two
arguments besides `self`.  Several call sites in `prescription_service.py`
and `gemini_service.py` pass a third `operation` argument (by keyword or by
position); Python then raises `TypeError` from the constructor call instead
of the intended `ValidationError`.  The `typeError` constructor models this
runtime outcome.
-/

inductive PharmaError where
  | validationError (message : String) (field : Option String)
  | safetyBlockError (reason : String)
  | resourceNotFoundError (resource : String) (identifier : Option String)
  | typeError (message : String)
  deriving DecidableEq, Repr

/-- A call `ValidationError(field=..., message=..., operation=...)` as at
`prescription_service.py:375/483/491`: the keyword `operation` is not a
parameter of `ValidationError.__init__`, so the call raises `TypeError`. -/
def raiseValidationErrorKw (_message _field _operation : String) : PharmaError :=
  .typeError "ValidationError.__init__() got an unexpected keyword argument: operation"

/-- A call `ValidationError(a, b, c)` with three positional arguments as in
`GeminiService._validate_output`: `__init__` takes at most `message` and
`field` besides `self`, so the call raises `TypeError`. -/
def raiseValidationErrorPos3 (_message _field _operation : String) : PharmaError :=
  .typeError "ValidationError.__init__() takes from 2 to 3 positional arguments but 4 were given"

/-! ## Gemini recommendation output (`schemas/gemini.py`) -/

structure RecommendationAlternative where
  medication : String
  reason : String
  estimated_copay : Option ℚ := none
  deriving DecidableEq, Repr

/-- Embeds `schemas/gemini.py` `RecommendationItem` (aliased `GeminiRecItem` by the
orchestrator). -/
structure GeminiRecItem where
  medication : String
  dosage : String
  frequency : String
  duration : String
  rationale : String
  formulary_status : String := ""
  estimated_copay : Option ℚ := none
  requires_prior_auth : Bool := false
  alternatives : List RecommendationAlternative := []
  deriving DecidableEq, Repr

/-- Embeds `GeminiRecommendationOutput`.  The Pydantic schema also enforces
`min_length=1` on `recommendations` at parse time, so a payload with an empty
list is already rejected by `model_validate` before `_validate_output` runs;
the model here represents an arbitrary candidate output object. -/
structure GeminiRecommendationOutput where
  recommendations : List GeminiRecItem
  clinical_reasoning : String := ""
  deriving DecidableEq, Repr

/-- The per-item loop of the `GeminiRecommendationOutput` branch of
`GeminiService._validate_output`: blank medication or blank dosage raise. -/
def validateRecItems (operation : String) : List GeminiRecItem → Except PharmaError Unit
  | [] => .ok ()
  | rec :: rest =>
    if pyStrip rec.medication.data == [] then
      .error (raiseValidationErrorPos3 "medication" "must not be blank" operation)
    else if pyStrip rec.dosage.data == [] then
      .error (raiseValidationErrorPos3 "dosage" "must not be blank" operation)
    else
      validateRecItems operation rest

/-- The `GeminiRecommendationOutput` branch of `GeminiService._validate_output`
(`gemini_service.py:187-194`): an empty recommendation list, a blank
medication or a blank dosage raise; the other branches of the source function
dispatch on unrelated output types. -/
def validateRecommendationOutput (output : GeminiRecommendationOutput)
    (operation : String) : Except PharmaError Unit :=
  if output.recommendations.isEmpty then
    .error (raiseValidationErrorPos3 "recommendations" "must not be empty" operation)
  else
    validateRecItems operation output.recommendations

/-! ## Recommendation DTOs (`schemas/recommendation.py`) -/

structure RecommendedDrug where
  drug_name : String
  generic_name : String
  dosage : String
  frequency : String
  duration : String
  route : String := "oral"
  rationale : String
  tier : Option Int := none
  estimated_copay : Option ℚ := none
  is_covered : Option Bool := none
  requires_prior_auth : Option Bool := none
  deriving DecidableEq, Repr

structure AlternativeDrug where
  drug_name : String
  generic_name : String
  dosage : String
  reason : String
  tier : Option Int := none
  estimated_copay : Option ℚ := none
  deriving DecidableEq, Repr

structure RecommendationItem where
  primary : RecommendedDrug
  alternatives : List AlternativeDrug := []
  warnings : List String := []
  deriving DecidableEq, Repr

structure RecommendationRequest where
  visit_id : Nat
  chief_complaint : String
  patient_id : Nat
  current_medications : List String := []
  allergies : List String := []
  notes : Option String := none
  deriving DecidableEq, Repr

structure RecommendationResponse where
  visit_id : Nat
  prescription_id : Option Nat := none
  recommendations : List RecommendationItem
  gemini_model : String := "gemini-2.5-flash"
  reasoning_summary : Option String := none
  deriving DecidableEq, Repr

/-! ## Receipt DTOs (`schemas/receipt.py`) -/

structure ReceiptDrugItem where
  drug_name : String
  generic_name : String
  dosage : String
  frequency : String
  duration : String
  route : String := "oral"
  tier : Option Int := none
  tier_label : Option String := none
  copay : Option ℚ := none
  is_covered : Bool := true
  requires_prior_auth : Bool := false
  deriving DecidableEq, Repr

/-- Embeds `schemas/receipt.py` `SafetyCheck` (aliased `ReceiptSafetyCheck`). -/
structure ReceiptSafetyCheck where
  check_type : String
  passed : Bool
  severity : Option String := none
  message : String
  deriving DecidableEq, Repr

structure ReceiptSafetySummary where
  all_passed : Bool
  checks : List ReceiptSafetyCheck
  allergy_flags : List String
  interaction_flags : List String
  dose_range_flags : List String
  deriving DecidableEq, Repr

structure ReceiptCoverageSummary where
  plan_name : String
  member_id : String
  total_copay : ℚ
  items_covered : Nat
  items_not_covered : Nat
  prior_auth_required : List String
  deriving DecidableEq, Repr

/-- Modelled from the spec: `prescription_service.py` imports
`ReceiptAlternative` from `schemas/receipt.py`, but that module does not
define it; the field shape is taken from the construction site in
`_build_receipt` and spec §4.4 (drug name, copay, coverage status, reason). -/
structure ReceiptAlternative where
  drug_name : String
  copay : Option ℚ := none
  coverage_status : String := "UNKNOWN"
  reason : String := ""
  deriving DecidableEq, Repr

/-- Modelled from the spec: `ReceiptReasoning` is likewise imported but not
defined in `schemas/receipt.py`; the shape is taken from the construction
site in `_build_receipt` (clinician summary and patient explanation). -/
structure ReceiptReasoning where
  clinician_summary : String
  patient_explanation : String
  deriving DecidableEq, Repr

structure PrescriptionReceipt where
  receipt_id : Nat
  prescription_id : Nat
  visit_id : Nat
  patient_id : Nat
  clinician_id : Nat
  patient_name : String
  clinician_name : String
  issued_at : String
  status : String
  drugs : List ReceiptDrugItem
  safety : ReceiptSafetySummary
  coverage : ReceiptCoverageSummary
  alternatives : List ReceiptAlternative := []
  reasoning : Option ReceiptReasoning := none
  notes : Option String := none
  signature_hash : Option String := none
  deriving DecidableEq, Repr

/-! ## Prescription store (`prescription_service.py` `_InMemoryPrescriptionStore`) -/

/-- One entry of `rx["rules_results"]`. -/
structure RulesResultSummary where
  medication : String
  blocked : Bool
  deriving DecidableEq, Repr

/-- The prescription dict persisted by the orchestrator.  The `id` key is the
association key of the store. -/
structure PrescriptionRecord where
  visit_id : Nat
  patient_id : Nat
  status : String
  items : List RecommendationItem
  rules_results : List RulesResultSummary
  created_at : String
  approved_at : Option String := none
  rejection_reason : Option String := none
  deriving DecidableEq, Repr

/-- The two dicts of `_InMemoryPrescriptionStore`, as association lists with
unique keys (Python dict semantics: overwrite in place, append if new). -/
structure PrescriptionStore where
  prescriptions : List (Nat × PrescriptionRecord) := []
  receipts : List (Nat × PrescriptionReceipt) := []
  deriving DecidableEq, Repr

/-- Python dict assignment `d[k] = v`. -/
def upsert {α : Type} (l : List (Nat × α)) (k : Nat) (v : α) : List (Nat × α) :=
  if l.any (fun p => p.1 == k) then
    l.map (fun p => if p.1 == k then (k, v) else p)
  else
    l ++ [(k, v)]

def getPrescription (store : PrescriptionStore) (rx_id : Nat) : Option PrescriptionRecord :=
  store.prescriptions.lookup rx_id

def savePrescription (store : PrescriptionStore) (rx_id : Nat)
    (rx : PrescriptionRecord) : PrescriptionStore :=
  { store with prescriptions := upsert store.prescriptions rx_id rx }

def saveReceipt (store : PrescriptionStore) (rx_id : Nat)
    (receipt : PrescriptionReceipt) : PrescriptionStore :=
  { store with receipts := upsert store.receipts rx_id receipt }

def getReceipt (store : PrescriptionStore) (rx_id : Nat) : Option PrescriptionReceipt :=
  store.receipts.lookup rx_id

/-! ## Operation requests (`schemas/prescription_ops.py`) -/

structure PrescriptionApprovalRequest where
  prescription_id : Nat
  confirmed_safety_review : Bool
  comment : Option String := none
  deriving DecidableEq, Repr

structure PrescriptionRejectionRequest where
  prescription_id : Nat
  reason : String
  deriving DecidableEq, Repr

/-! ## Receipt construction (`PrescriptionService._build_receipt`) -/

inductive WarnBucket where
  | allergyB
  | interactionB
  | doseB
  deriving DecidableEq, Repr

/-- The keyword classification of one warning string (`"allerg"`,
`"interaction"`, `"dose"` searched in the lowered text, in that order). -/
def warnBucket (w : String) : Option WarnBucket :=
  let wl := pyLower w.data
  if strIn "allerg".data wl then some .allergyB
  else if strIn "interaction".data wl then some .interactionB
  else if strIn "dose".data wl then some .doseB
  else none

/-- All warnings of all items, in item order (the doubly nested loop of
`_build_receipt`). -/
def allWarnings (items : List RecommendationItem) : List String :=
  items.flatMap (·.warnings)

/-- Embeds `_build_receipt`.  Non-deterministic inputs (`uuid.uuid4()`,
`datetime.now`) are the explicit parameters `receipt_id` / `clinician_id` /
`issued_at`.  The `primary.get("is_covered", True)` / `("requires_prior_auth",
False)` dict lookups are modelled with the same defaults; every record the
orchestrator writes carries concrete booleans there (they come from
`CoverageResult`), so the defaults are never exercised.  The reasoning block
reads `first_item.get("rationale", "")`, but a stored item dict only has the
keys `primary`/`alternatives`/`warnings`, so the rationale is always empty
and the reasoning block is always `None`. -/
def buildReceipt (prescription_id : Nat) (rx : PrescriptionRecord)
    (patient_name clinician_name : String) (patient_id clinician_id visit_id : Nat)
    (plan_name member_id : String) (receipt_id : Nat) (issued_at : String) :
    PrescriptionReceipt :=
  let drugs := rx.items.map (fun item =>
    let primary := item.primary
    ({ drug_name := primary.drug_name, generic_name := primary.generic_name,
       dosage := primary.dosage, frequency := primary.frequency,
       duration := primary.duration, tier := primary.tier,
       copay := primary.estimated_copay,
       is_covered := primary.is_covered.getD true,
       requires_prior_auth := primary.requires_prior_auth.getD false } : ReceiptDrugItem))
  let total_copay := (rx.items.filterMap (·.primary.estimated_copay)).sum
  let items_covered := rx.items.countP (fun item => item.primary.is_covered.getD true)
  let items_not_covered := rx.items.countP (fun item => !(item.primary.is_covered.getD true))
  let prior_auth_drugs := (rx.items.filter
    (fun item => item.primary.requires_prior_auth.getD false)).map (·.primary.drug_name)
  let ws := allWarnings rx.items
  let allergy_flags := ws.filter (fun w => warnBucket w == some .allergyB)
  let interaction_flags := ws.filter (fun w => warnBucket w == some .interactionB)
  let dose_flags := ws.filter (fun w => warnBucket w == some .doseB)
  let safety_checks := ws.map (fun w =>
    ({ check_type := if (warnBucket w).isSome then "WARNING" else "INFO",
       passed := (warnBucket w).isNone,
       severity := some "WARNING", message := w } : ReceiptSafetyCheck))
  let all_passed := allergy_flags.isEmpty && interaction_flags.isEmpty && dose_flags.isEmpty
  let receipt_alternatives := rx.items.flatMap (fun item =>
    item.alternatives.map (fun alt =>
      ({ drug_name := alt.drug_name, copay := alt.estimated_copay,
         coverage_status := "UNKNOWN", reason := alt.reason } : ReceiptAlternative)))
  { receipt_id := receipt_id, prescription_id := prescription_id,
    visit_id := visit_id, patient_id := patient_id, clinician_id := clinician_id,
    patient_name := patient_name, clinician_name := clinician_name,
    issued_at := issued_at, status := "approved",
    drugs := drugs,
    safety := { all_passed := all_passed, checks := safety_checks,
                allergy_flags := allergy_flags, interaction_flags := interaction_flags,
                dose_range_flags := dose_flags },
    coverage := { plan_name := plan_name, member_id := member_id,
                  total_copay := total_copay, items_covered := items_covered,
                  items_not_covered := items_not_covered,
                  prior_auth_required := prior_auth_drugs },
    alternatives := receipt_alternatives,
    reasoning := none }

/-! ## Prescription approval (`PrescriptionService.approve_prescription`) -/

/-- Embeds `approve_prescription`, returning the raised error or the receipt,
together with the store as it stands when the function returns or raises.
Checks run in source order: missing safety-review confirmation (which hits
the broken `ValidationError` constructor call, hence `typeError`), missing
prescription, then the blocking scan over `rules_results` (raising
`SafetyBlockError` with the first item warning when one exists); only after
all three does the store get mutated.  The analytics emission is external. -/
def approvePrescription (store : PrescriptionStore)
    (request : PrescriptionApprovalRequest)
    (patient_name clinician_name : String) (clinician_id : Nat)
    (plan_name member_id : String) (now : String) (fresh_receipt_id : Nat) :
    Except PharmaError PrescriptionReceipt × PrescriptionStore :=
  if !request.confirmed_safety_review then
    (.error (raiseValidationErrorKw "Safety review must be confirmed before approval"
      "confirmed_safety_review" "approve_prescription"), store)
  else
    match getPrescription store request.prescription_id with
    | none =>
      (.error (.resourceNotFoundError "Prescription" (some (toString request.prescription_id))),
       store)
    | some rx =>
      if rx.rules_results.any (·.blocked) then
        match rx.items.find? (fun item => !item.warnings.isEmpty) with
        | some item =>
          let w0 := item.warnings.headD ""
          (.error (.safetyBlockError s!"Cannot approve blocked prescription: {w0}"), store)
        | none =>
          (.error (.safetyBlockError "Cannot approve prescription with blocking safety failures"),
           store)
      else
        let rx2 := { rx with status := "approved", approved_at := some now }
        let store2 := savePrescription store request.prescription_id rx2
        let receipt := buildReceipt request.prescription_id rx2 patient_name clinician_name
          rx.patient_id clinician_id rx.visit_id plan_name member_id fresh_receipt_id now
        let store3 := saveReceipt store2 request.prescription_id receipt
        (.ok receipt, store3)

/-! ## Prescription rejection (`PrescriptionService.reject_prescription`) -/

/-- Embeds `reject_prescription`: absent prescription raises; otherwise the status
becomes `rejected` and the reason is recorded, with no check of the current
status. -/
def rejectPrescription (store : PrescriptionStore)
    (request : PrescriptionRejectionRequest) :
    Except PharmaError Unit × PrescriptionStore :=
  match getPrescription store request.prescription_id with
  | none =>
    (.error (.resourceNotFoundError "Prescription" (some (toString request.prescription_id))),
     store)
  | some rx =>
    let rx2 := { rx with status := "rejected", rejection_reason := some request.reason }
    (.ok (), savePrescription store request.prescription_id rx2)

/-! ## Recommendation pipeline (`PrescriptionService.generate_recommendations`) -/

/-- Steps 2–5 of the pipeline for one Gemini candidate: rules-engine
evaluation, coverage lookup, alternatives when not COVERED, warnings from
every non-PASS check; returns the annotated item and its blocking flag. -/
def annotateCandidate (request : RecommendationRequest)
    (formulary : List FormularyEntryData)
    (drug_interactions : List DrugInteractionData)
    (dose_ranges : List DoseRangeData)
    (insurance_plan_name : String) (gem_item : GeminiRecItem) :
    RecommendationItem × Bool :=
  let engine_input : RulesEngineInput :=
    { medication_name := gem_item.medication, dosage := gem_item.dosage,
      patient_allergies := request.allergies,
      current_medications := request.current_medications,
      drug_interactions := drug_interactions, dose_ranges := dose_ranges }
  let rules_out := evaluate engine_input
  let coverage := lookupCoverage gem_item.medication formulary "" insurance_plan_name
  let alts := if coverage.status != CoverageStatus.COVERED then
      findAlternatives gem_item.medication formulary 3
    else []
  let warnings := (rules_out.checks.filter
    (fun check => check.status == CheckStatus.FAIL || check.status == CheckStatus.WARNING)).map
    (·.details)
  let primary : RecommendedDrug :=
    { drug_name := gem_item.medication, generic_name := gem_item.medication,
      dosage := gem_item.dosage, frequency := gem_item.frequency,
      duration := gem_item.duration, rationale := gem_item.rationale,
      tier := coverage.tier, estimated_copay := coverage.copay,
      is_covered := some coverage.is_covered,
      requires_prior_auth := some coverage.requires_prior_auth }
  let alt_drugs := alts.map (fun a =>
    ({ drug_name := a.drug_name, generic_name := a.generic_name, dosage := "",
       reason := a.reason, tier := some a.tier,
       estimated_copay := some a.copay } : AlternativeDrug))
  ({ primary := primary, alternatives := alt_drugs, warnings := warnings },
   rules_out.has_blocking_failure)

/-- Embeds `generate_recommendations`.  The awaited Gemini call is the capability
boundary: its outcome (validated output, or the exception it raised) is the
`gemini_outcome` parameter.  If the call raised, the exception propagates
before any evaluation or persistence (step 1 precedes steps 2–7).  On
success every candidate is annotated and a new prescription with status
`recommended` is persisted under a fresh key.  Analytics emissions (blocked
options, generation summary) are external and carry no store state. -/
def generateRecommendations (store : PrescriptionStore)
    (request : RecommendationRequest)
    (formulary : List FormularyEntryData)
    (drug_interactions : List DrugInteractionData)
    (dose_ranges : List DoseRangeData)
    (insurance_plan_name : String)
    (gemini_outcome : Except PharmaError GeminiRecommendationOutput)
    (fresh_rx_id : Nat) (now : String) (gemini_model : String) :
    Except PharmaError RecommendationResponse × PrescriptionStore :=
  match gemini_outcome with
  | .error e => (.error e, store)
  | .ok gemini_out =>
    let annotated_pairs := gemini_out.recommendations.map
      (annotateCandidate request formulary drug_interactions dose_ranges insurance_plan_name)
    let annotated := annotated_pairs.map (·.1)
    let rx : PrescriptionRecord :=
      { visit_id := request.visit_id, patient_id := request.patient_id,
        status := "recommended", items := annotated,
        rules_results := annotated_pairs.map (fun p =>
          { medication := p.1.primary.drug_name, blocked := p.2 }),
        created_at := now }
    let store2 := savePrescription store fresh_rx_id rx
    (.ok { visit_id := request.visit_id, prescription_id := some fresh_rx_id,
           recommendations := annotated, gemini_model := gemini_model,
           reasoning_summary := some gemini_out.clinical_reasoning }, store2)

/-! ## Specification-side predicates and concrete fixtures

The predicates restate claim conditions; the fixtures are the concrete
inputs used by the witness theorems below. -/

/-- The allergy-match condition as the specification states it: a
case-insensitive substring match in either direction, or the allergy being a
drug-class key whose member set contains the drug, or the two names sharing
at least one drug class through the class-membership table. -/
def allergyMatchesDrug (medication allergy : String) : Prop :=
  strIn (norm allergy) (norm medication) = true
  ∨ strIn (norm medication) (norm allergy) = true
  ∨ (∃ p ∈ DRUG_CLASS_MAP, p.1.data = norm allergy
      ∧ norm medication ∈ p.2.map (fun m => m.data))
  ∨ (∃ c ∈ getDrugClassesN allergy.data, c ∈ getDrugClassesN medication.data)

def allergyWitnessInput : RulesEngineInput :=
  { medication_name := "Amoxicillin", dosage := "500mg",
    patient_allergies := ["Penicillin"], current_medications := [],
    drug_interactions := [], dose_ranges := [] }

/-- The interaction verdict of one check result: status, blocking flag and
severity label (the free-text detail names the two drugs in query order and
is excluded on purpose). -/
def verdict (r : SafetyCheckResult) : CheckStatus × Bool × Option String :=
  (r.status, r.blocking, r.severity)

/-- The rules-engine input for drug `x` proposed while `y` is the one
current medication (all other fields shared). -/
def proposedOnCurrent (x y dosage : String) (allergies : List String)
    (ixs : List DrugInteractionData) (drs : List DoseRangeData) : RulesEngineInput :=
  { medication_name := x, dosage := dosage, patient_allergies := allergies,
    current_medications := [y], drug_interactions := ixs, dose_ranges := drs }

def ixWarfarinAspirin : DrugInteractionData :=
  { drug_a := "Warfarin", drug_b := "Aspirin", severity := "SEVERE",
    description := "Increased bleeding risk" }

def drIbuprofenLow : DoseRangeData :=
  { medication_name := "Ibuprofen", min_dose_mg := 200, max_dose_mg := 400 }

def drIbuprofenHigh : DoseRangeData :=
  { medication_name := "Ibuprofen", min_dose_mg := 600, max_dose_mg := 1000 }

def drIbuprofenMid : DoseRangeData :=
  { medication_name := "Ibuprofen", min_dose_mg := 200, max_dose_mg := 600 }

def entryMetformin : FormularyEntryData :=
  { drug_name := "Metformin", generic_name := "Metformin", plan_name := "Acme Basic",
    tier := 1, copay := 5, is_covered := true, requires_prior_auth := false }

def entryBrandX : FormularyEntryData :=
  { drug_name := "BrandX", generic_name := "BrandX", plan_name := "Acme Basic",
    tier := 4, copay := 80, is_covered := false, requires_prior_auth := false }

def entryHumira : FormularyEntryData :=
  { drug_name := "Humira", generic_name := "Adalimumab", plan_name := "Acme Basic",
    tier := 5, copay := 150, is_covered := true, requires_prior_auth := true }

/-- The outcome of the approval call is a raised `SafetyBlockError`. -/
def isSafetyBlockError : Except PharmaError PrescriptionReceipt → Prop
  | .error (.safetyBlockError _) => True
  | _ => False

def blockedPrimary : RecommendedDrug :=
  { drug_name := "Amoxicillin", generic_name := "Amoxicillin", dosage := "500mg",
    frequency := "twice daily", duration := "7 days",
    rationale := "suspected infection", tier := some 1, estimated_copay := some 5,
    is_covered := some true, requires_prior_auth := some false }

def blockedItem : RecommendationItem :=
  { primary := blockedPrimary, alternatives := [],
    warnings := ["Patient is allergic to Penicillin; Amoxicillin is contraindicated"] }

def blockedRx : PrescriptionRecord :=
  { visit_id := 1, patient_id := 2, status := "recommended", items := [blockedItem],
    rules_results := [{ medication := "Amoxicillin", blocked := true }],
    created_at := "t0" }

def blockedStore : PrescriptionStore :=
  { prescriptions := [(10, blockedRx)], receipts := [] }

def approveBlockedReq : PrescriptionApprovalRequest :=
  { prescription_id := 10, confirmed_safety_review := true, comment := none }

/-- The record as `reject_prescription` rewrites it. -/
def rejectedCopy (rx : PrescriptionRecord) (reason : String) : PrescriptionRecord :=
  { rx with status := "rejected", rejection_reason := some reason }

/-- The record as `approve_prescription` rewrites it. -/
def approvedCopy (rx : PrescriptionRecord) (now : String) : PrescriptionRecord :=
  { rx with status := "approved", approved_at := some now }

def terminalRx : PrescriptionRecord :=
  { visit_id := 7, patient_id := 3, status := "approved", items := [],
    rules_results := [], created_at := "t0", approved_at := some "t1" }

def terminalStore : PrescriptionStore :=
  { prescriptions := [(42, terminalRx)], receipts := [] }

def candidateAmoxicillin : GeminiRecItem :=
  { medication := "Amoxicillin", dosage := "500mg", frequency := "twice daily",
    duration := "7 days", rationale := "suspected infection" }

def geminiOneCandidate : GeminiRecommendationOutput :=
  { recommendations := [candidateAmoxicillin],
    clinical_reasoning := "short course antibiotic" }

/-! ## Normalisation lemmas

Python's `.lower()` and `.strip()` are idempotent; the services rely on this
by re-normalising already-normalised strings (e.g. `_get_drug_classes` is
called on `allergy.lower().strip()` and lowers/strips again internally).
-/

theorem char_toLower_idem (c : Char) : c.toLower.toLower = c.toLower := by
  by_cases h : c.toNat ≥ 65 ∧ c.toNat ≤ 90
  · have hlow : c.toLower = Char.ofNat (c.toNat + 32) := by
      unfold Char.toLower
      simp [h]
    rw [hlow]
    obtain ⟨h1, h2⟩ := h
    set n := c.toNat with hn
    interval_cases n <;> decide
  · have hfix : c.toLower = c := by
      unfold Char.toLower
      simp [h]
    rw [hfix, hfix]

theorem map_eq_self_forall {α : Type} {f : α → α} :
    ∀ {l : List α}, l.map f = l → ∀ a ∈ l, f a = a := by
  intro l
  induction l with
  | nil => intro _ a ha; cases ha
  | cons x xs ih =>
    intro h a ha
    rw [List.map_cons, List.cons.injEq] at h
    rw [List.mem_cons] at ha
    rcases ha with ha | ha
    · rw [ha]; exact h.1
    · exact ih h.2 a ha

theorem pyLower_idem (l : List Char) : pyLower (pyLower l) = pyLower l := by
  unfold pyLower
  rw [List.map_map]
  exact List.map_congr_left (fun c _ => char_toLower_idem c)

theorem mem_of_mem_pyStrip {l : List Char} {c : Char} (h : c ∈ pyStrip l) : c ∈ l := by
  unfold pyStrip at h
  rw [List.mem_reverse] at h
  have h2 := (List.dropWhile_sublist (l := (l.dropWhile isSpaceChar).reverse)
    (p := isSpaceChar)).subset h
  rw [List.mem_reverse] at h2
  exact (List.dropWhile_sublist (l := l) (p := isSpaceChar)).subset h2

theorem pyLower_pyStrip_of_fixed {l : List Char} (h : pyLower l = l) :
    pyLower (pyStrip l) = pyStrip l := by
  unfold pyLower at h ⊢
  exact List.map_congr_left (fun c hc =>
    map_eq_self_forall h c (mem_of_mem_pyStrip hc)) |>.trans (List.map_id _)

theorem dropWhile_idem (p : Char → Bool) (l : List Char) :
    (l.dropWhile p).dropWhile p = l.dropWhile p := by
  induction l with
  | nil => rfl
  | cons c cs ih =>
    by_cases h : p c
    · simp [List.dropWhile_cons, h, ih]
    · simp [List.dropWhile_cons, h]

theorem dropWhile_eq_self_of_prefix {p : Char → Bool} {l l' : List Char}
    (h : l.dropWhile p = l) (hp : l' <+: l) : l'.dropWhile p = l' := by
  cases l' with
  | nil => rfl
  | cons a t =>
    obtain ⟨rest, hrest⟩ := hp
    subst hrest
    by_cases ha : p a
    · exfalso
      rw [List.cons_append, List.dropWhile_cons, if_pos ha] at h
      have hle := (List.dropWhile_sublist (p := p) (l := t ++ rest)).length_le
      rw [h] at hle
      simp at hle
    · rw [List.dropWhile_cons, if_neg ha]

theorem pyStrip_idem (l : List Char) : pyStrip (pyStrip l) = pyStrip l := by
  have hS2 : (pyStrip l).reverse.dropWhile isSpaceChar = (pyStrip l).reverse := by
    unfold pyStrip
    rw [List.reverse_reverse]
    exact dropWhile_idem _ _
  have hPre : pyStrip l <+: l.dropWhile isSpaceChar := by
    unfold pyStrip
    have h1 := List.reverse_prefix.mpr
      (List.dropWhile_suffix (l := (l.dropWhile isSpaceChar).reverse) isSpaceChar)
    rwa [List.reverse_reverse] at h1
  have hS1 : (pyStrip l).dropWhile isSpaceChar = pyStrip l :=
    dropWhile_eq_self_of_prefix (dropWhile_idem _ _) hPre
  show ((((pyStrip l).dropWhile isSpaceChar).reverse.dropWhile isSpaceChar)).reverse = pyStrip l
  rw [hS1, hS2, List.reverse_reverse]

/-- Applying `.lower().strip()` twice equals applying it once. -/
theorem norm_idem (X : List Char) :
    pyStrip (pyLower (pyStrip (pyLower X))) = pyStrip (pyLower X) := by
  rw [pyLower_pyStrip_of_fixed (pyLower_idem X), pyStrip_idem]

/-- Re-normalising an already normalised name inside `_get_drug_classes` is
the identity, so querying the index with `norm s` or with the raw characters
of `s` gives the same classes. -/
theorem getDrugClassesN_norm (s : String) :
    getDrugClassesN (norm s) = getDrugClassesN s.data := by
  unfold getDrugClassesN
  have h : pyStrip (pyLower (norm s)) = pyStrip (pyLower s.data) := by
    unfold norm
    rw [norm_idem]
  simp only [h]

/-! ## Check-type lemmas: each of the four checks stamps its own kind -/

theorem checkAllergies_check_type (medication : String) (allergies : List String) :
    (checkAllergies medication allergies).check_type = CheckType.ALLERGY := by
  induction allergies with
  | nil => rfl
  | cons a rest ih =>
    rw [checkAllergies]
    split
    · rfl
    · exact ih

theorem interactionResult_check_type (medication current : String)
    (ix : DrugInteractionData) :
    (interactionResult medication current ix).check_type = CheckType.DRUG_INTERACTION := by
  rw [interactionResult]
  split
  · rfl
  · split <;> rfl

theorem checkInteractions_check_type (medication : String)
    (current_medications : List String) (interactions : List DrugInteractionData) :
    ∀ r ∈ checkInteractions medication current_medications interactions,
      r.check_type = CheckType.DRUG_INTERACTION := by
  intro r hr
  rw [checkInteractions] at hr
  split at hr
  · rw [List.mem_singleton] at hr
    rw [hr]
  · rw [interactionMatches] at hr
    simp only [List.mem_flatMap, List.mem_map, List.mem_filter] at hr
    obtain ⟨cur, _, ix, _, hix⟩ := hr
    rw [← hix]
    exact interactionResult_check_type medication cur ix

theorem checkDoseRange_check_type (medication dosage : String)
    (dose_ranges : List DoseRangeData) :
    (checkDoseRange medication dosage dose_ranges).check_type = CheckType.DOSE_RANGE := by
  rw [checkDoseRange]
  split
  · rfl
  · split
    · rfl
    · split
      · rfl
      · split <;> rfl

theorem checkDuplicateTherapy_check_type (medication : String)
    (current_medications : List String) :
    (checkDuplicateTherapy medication current_medications).check_type
      = CheckType.DUPLICATE_THERAPY := by
  induction current_medications with
  | nil => rfl
  | cons cur rest ih =>
    rw [checkDuplicateTherapy]
    split
    · rfl
    · split
      · rfl
      · exact ih

/-! ## The four checks in `evaluate` are disjoint by kind -/

theorem evaluate_checks_eq (input : RulesEngineInput) :
    (evaluate input).checks =
      [checkAllergies input.medication_name input.patient_allergies]
      ++ checkInteractions input.medication_name input.current_medications
           input.drug_interactions
      ++ [checkDoseRange input.medication_name input.dosage input.dose_ranges]
      ++ [checkDuplicateTherapy input.medication_name input.current_medications] := rfl

theorem evaluate_filter_allergy (input : RulesEngineInput) :
    (evaluate input).checks.filter (fun c => c.check_type == CheckType.ALLERGY)
      = [checkAllergies input.medication_name input.patient_allergies] := by
  rw [evaluate_checks_eq]
  rw [List.filter_append, List.filter_append, List.filter_append]
  have hA : List.filter (fun c => c.check_type == CheckType.ALLERGY)
      [checkAllergies input.medication_name input.patient_allergies]
      = [checkAllergies input.medication_name input.patient_allergies] := by
    simp [List.filter_cons, checkAllergies_check_type]
  have hI : List.filter (fun c => c.check_type == CheckType.ALLERGY)
      (checkInteractions input.medication_name input.current_medications
        input.drug_interactions) = [] := by
    refine List.filter_eq_nil_iff.mpr (fun r hr => ?_)
    simp [checkInteractions_check_type _ _ _ r hr]
  have hD : List.filter (fun c => c.check_type == CheckType.ALLERGY)
      [checkDoseRange input.medication_name input.dosage input.dose_ranges] = [] := by
    simp [List.filter_cons, checkDoseRange_check_type]
  have hT : List.filter (fun c => c.check_type == CheckType.ALLERGY)
      [checkDuplicateTherapy input.medication_name input.current_medications] = [] := by
    simp [List.filter_cons, checkDuplicateTherapy_check_type]
  rw [hA, hI, hD, hT]
  simp

theorem evaluate_filter_interactions (input : RulesEngineInput) :
    (evaluate input).checks.filter (fun c => c.check_type == CheckType.DRUG_INTERACTION)
      = checkInteractions input.medication_name input.current_medications
          input.drug_interactions := by
  rw [evaluate_checks_eq]
  rw [List.filter_append, List.filter_append, List.filter_append]
  have hA : List.filter (fun c => c.check_type == CheckType.DRUG_INTERACTION)
      [checkAllergies input.medication_name input.patient_allergies] = [] := by
    simp [List.filter_cons, checkAllergies_check_type]
  have hI : List.filter (fun c => c.check_type == CheckType.DRUG_INTERACTION)
      (checkInteractions input.medication_name input.current_medications
        input.drug_interactions)
      = checkInteractions input.medication_name input.current_medications
          input.drug_interactions := by
    refine List.filter_eq_self.mpr (fun r hr => ?_)
    simp [checkInteractions_check_type _ _ _ r hr]
  have hD : List.filter (fun c => c.check_type == CheckType.DRUG_INTERACTION)
      [checkDoseRange input.medication_name input.dosage input.dose_ranges] = [] := by
    simp [List.filter_cons, checkDoseRange_check_type]
  have hT : List.filter (fun c => c.check_type == CheckType.DRUG_INTERACTION)
      [checkDuplicateTherapy input.medication_name input.current_medications] = [] := by
    simp [List.filter_cons, checkDuplicateTherapy_check_type]
  rw [hA, hI, hD, hT]
  simp

/-! ## Characterisation of the allergy match -/

theorem drug_class_keys_nodup : (DRUG_CLASS_MAP.map (fun q => q.1.data)).Nodup := by decide

theorem find?_eq_some_of_nodup {α β : Type} [BEq β] [LawfulBEq β] (f : α → β) (k : β) :
    ∀ (l : List α), (l.map f).Nodup → ∀ p ∈ l, f p = k →
      l.find? (fun q => f q == k) = some p := by
  intro l
  induction l with
  | nil => intro _ p hp; cases hp
  | cons a t ih =>
    intro hnd p hp hk
    rw [List.map_cons, List.nodup_cons] at hnd
    rw [List.mem_cons] at hp
    rcases hp with hp | hp
    · subst hp
      rw [List.find?_cons_of_pos]
      simp [hk]
    · rw [List.find?_cons_of_neg]
      · exact ih hnd.2 p hp hk
      · simp only [beq_iff_eq]
        intro he
        apply hnd.1
        rw [he, ← hk]
        exact List.mem_map_of_mem f hp

theorem allergyClassKeyHit_iff (medication allergy : String) :
    allergyClassKeyHit (norm medication) (norm allergy) = true ↔
      ∃ p ∈ DRUG_CLASS_MAP, p.1.data = norm allergy
        ∧ norm medication ∈ p.2.map (fun m => m.data) := by
  unfold allergyClassKeyHit
  constructor
  · intro h
    rcases hf : DRUG_CLASS_MAP.find? (fun p => p.1.data == norm allergy) with _ | p
    · rw [hf] at h; cases h
    · rw [hf] at h
      refine ⟨p, List.mem_of_find?_eq_some hf, ?_, ?_⟩
      · have := List.find?_some hf
        simpa using this
      · rw [List.any_eq_true] at h
        obtain ⟨m, hm, hmd⟩ := h
        rw [beq_iff_eq] at hmd
        rw [← hmd]
        exact List.mem_map_of_mem _ hm
  · rintro ⟨p, hmem, hk, hmed⟩
    have hfind : DRUG_CLASS_MAP.find? (fun q => q.1.data == norm allergy) = some p :=
      find?_eq_some_of_nodup (fun q => q.1.data) (norm allergy) DRUG_CLASS_MAP
        drug_class_keys_nodup p hmem hk
    rw [hfind]
    rw [List.any_eq_true]
    rw [List.mem_map] at hmed
    obtain ⟨m, hm, hmd⟩ := hmed
    exact ⟨m, hm, by simp [hmd]⟩

theorem classIntersects_iff (medication allergy : String) :
    classIntersects (norm medication) (norm allergy) = true ↔
      ∃ c ∈ getDrugClassesN allergy.data, c ∈ getDrugClassesN medication.data := by
  unfold classIntersects
  rw [getDrugClassesN_norm, getDrugClassesN_norm]
  simp [List.any_eq_true]

/-- The code predicate `_is_drug_class_allergy_match` decides exactly the
specification's match condition. -/
theorem isDrugClassAllergyMatch_iff (medication allergy : String) :
    isDrugClassAllergyMatch medication allergy = true ↔
      allergyMatchesDrug medication allergy := by
  unfold isDrugClassAllergyMatch allergyMatchesDrug
  rw [Bool.or_eq_true, Bool.or_eq_true, Bool.or_eq_true,
    allergyClassKeyHit_iff, classIntersects_iff]
  rw [or_assoc, or_assoc]

/-! ## First-match behaviour of `_check_allergies` -/

theorem checkAllergies_cases (medication : String) (allergies : List String) :
    ((∃ a ∈ allergies, isDrugClassAllergyMatch medication a = true) →
      (checkAllergies medication allergies).status = CheckStatus.FAIL ∧
      (checkAllergies medication allergies).blocking = true)
    ∧ ((∀ a ∈ allergies, isDrugClassAllergyMatch medication a = false) →
      (checkAllergies medication allergies).status = CheckStatus.PASS ∧
      (checkAllergies medication allergies).blocking = false) := by
  induction allergies with
  | nil =>
    refine ⟨?_, fun _ => ⟨rfl, rfl⟩⟩
    rintro ⟨a, ha, _⟩
    cases ha
  | cons a rest ih =>
    constructor
    · rintro ⟨b, hb, hmatch⟩
      rw [checkAllergies]
      by_cases hA : isDrugClassAllergyMatch medication a = true
      · rw [if_pos hA]
        exact ⟨rfl, rfl⟩
      · rw [if_neg hA]
        apply ih.1
        rw [List.mem_cons] at hb
        rcases hb with hb | hb
        · subst hb; exact absurd hmatch hA
        · exact ⟨b, hb, hmatch⟩
    · intro hall
      rw [checkAllergies]
      rw [if_neg (by simp [hall a (List.mem_cons_self a rest)])]
      exact ih.2 (fun b hb => hall b (List.mem_cons_of_mem a hb))

/-! ## Claim C2 -/

/-- C2: for every RulesEngine input, the returned `has_blocking_failure`
equals the OR of the blocking flags of all checks in the returned list, and
`overall_status` is BLOCKED if any check is blocking, else WARNING if any
check has status WARNING, else PASS. -/
theorem rules_output_blocking_and_status_derived (input : RulesEngineInput) :
    (evaluate input).has_blocking_failure
      = (evaluate input).checks.any (·.blocking)
    ∧ (evaluate input).overall_status =
        (if (evaluate input).checks.any (·.blocking) then "BLOCKED"
         else if (evaluate input).checks.any (fun c => c.status == CheckStatus.WARNING)
           then "WARNING" else "PASS") :=
  ⟨rfl, rfl⟩

/-! ## Claim C3 -/

/-- C3: the ALLERGY portion of `evaluate`'s output is always exactly the one
result of the allergy check; it is FAIL + blocking exactly when some allergy
matches the proposed drug by substring (either direction), by being a class
key containing the drug, or by a shared drug class — and a single
non-blocking PASS when no allergy matches. -/
theorem allergy_check_fail_iff_match (input : RulesEngineInput) :
    (evaluate input).checks.filter (fun c => c.check_type == CheckType.ALLERGY)
      = [checkAllergies input.medication_name input.patient_allergies]
    ∧ ((∃ a ∈ input.patient_allergies,
          allergyMatchesDrug input.medication_name a) →
        (checkAllergies input.medication_name input.patient_allergies).status
            = CheckStatus.FAIL
        ∧ (checkAllergies input.medication_name input.patient_allergies).blocking = true)
    ∧ ((∀ a ∈ input.patient_allergies,
          ¬ allergyMatchesDrug input.medication_name a) →
        (checkAllergies input.medication_name input.patient_allergies).status
            = CheckStatus.PASS
        ∧ (checkAllergies input.medication_name input.patient_allergies).blocking
            = false) := by
  refine ⟨evaluate_filter_allergy input, ?_, ?_⟩
  · rintro ⟨a, ha, hm⟩
    exact (checkAllergies_cases _ _).1
      ⟨a, ha, (isDrugClassAllergyMatch_iff _ _).mpr hm⟩
  · intro hall
    refine (checkAllergies_cases _ _).2 (fun a ha => ?_)
    have hna := mt (isDrugClassAllergyMatch_iff input.medication_name a).mp (hall a ha)
    exact Bool.eq_false_iff.mpr hna

/-- Witness for C3: a patient allergic to Penicillin and a proposed
Amoxicillin (same drug class) gets the blocking FAIL allergy result. -/
theorem allergy_check_fail_iff_match_witness :
    (evaluate allergyWitnessInput).checks.filter
        (fun c => c.check_type == CheckType.ALLERGY)
      = [checkAllergies "Amoxicillin" ["Penicillin"]]
    ∧ (checkAllergies "Amoxicillin" ["Penicillin"]).status = CheckStatus.FAIL
    ∧ (checkAllergies "Amoxicillin" ["Penicillin"]).blocking = true := by
  obtain ⟨h1, h2, _⟩ := allergy_check_fail_iff_match allergyWitnessInput
  have hm : ∃ a ∈ allergyWitnessInput.patient_allergies,
      allergyMatchesDrug allergyWitnessInput.medication_name a := by
    refine ⟨"Penicillin", by decide, ?_⟩
    unfold allergyMatchesDrug
    right; right; left
    decide
  exact ⟨h1, (h2 hm).1, (h2 hm).2⟩

/-! ## Claim C4 -/

theorem matchedPair_symm (x y : String) (ix : DrugInteractionData) :
    matchedPair x y ix = matchedPair y x ix := by
  simp only [matchedPair]
  rw [Bool.or_comm]

theorem verdict_interactionResult (x y u v : String) (ix : DrugInteractionData) :
    verdict (interactionResult x y ix) = verdict (interactionResult u v ix) := by
  simp only [interactionResult, verdict]
  split
  · rfl
  · split <;> rfl

theorem interactionMatches_single (x y : String) (ixs : List DrugInteractionData) :
    interactionMatches x [y] ixs
      = (ixs.filter (matchedPair x y)).map (interactionResult x y) := by
  simp [interactionMatches]

theorem checkInteractions_swap (x y : String) (ixs : List DrugInteractionData) :
    (checkInteractions x [y] ixs).map verdict
      = (checkInteractions y [x] ixs).map verdict := by
  rw [checkInteractions, checkInteractions,
    interactionMatches_single, interactionMatches_single,
    List.filter_congr (fun ix _ => matchedPair_symm x y ix)]
  cases hL : ixs.filter (matchedPair y x) with
  | nil => rfl
  | cons a t =>
    simp only [List.map_cons, List.isEmpty_cons]
    rw [if_neg (by simp), if_neg (by simp)]
    rw [← List.map_cons, ← List.map_cons, List.map_map, List.map_map]
    exact List.map_congr_left (fun ix _ => verdict_interactionResult x y y x ix)

theorem interactionResult_severity (med cur : String) (ix : DrugInteractionData) :
    (pyUpper ix.severity.data = "SEVERE".data →
      (interactionResult med cur ix).status = CheckStatus.FAIL ∧
      (interactionResult med cur ix).blocking = true)
    ∧ (pyUpper ix.severity.data ≠ "SEVERE".data →
      (interactionResult med cur ix).status = CheckStatus.WARNING ∧
      (interactionResult med cur ix).blocking = false) := by
  constructor
  · intro h
    simp only [interactionResult]
    rw [if_pos (by simp [h])]
    exact ⟨rfl, rfl⟩
  · intro h
    simp only [interactionResult]
    rw [if_neg (by simp [h])]
    split <;> exact ⟨rfl, rfl⟩

theorem interactionResult_mem_checkInteractions (med : String) (meds : List String)
    (ixs : List DrugInteractionData) (cur : String) (ix : DrugInteractionData)
    (hcur : cur ∈ meds) (hix : ix ∈ ixs) (hmatch : matchedPair med cur ix = true) :
    interactionResult med cur ix ∈ checkInteractions med meds ixs := by
  have hmem : interactionResult med cur ix ∈ interactionMatches med meds ixs := by
    rw [interactionMatches]
    simp only [List.mem_flatMap, List.mem_map, List.mem_filter]
    exact ⟨cur, hcur, ix, ⟨hix, hmatch⟩, rfl⟩
  rw [checkInteractions]
  rw [if_neg (by
    have hne := List.ne_nil_of_mem hmem
    simp [List.isEmpty_iff, hne])]
  exact hmem

theorem checkInteractions_no_match (med : String) (meds : List String)
    (ixs : List DrugInteractionData)
    (h : ∀ cur ∈ meds, ∀ ix ∈ ixs, matchedPair med cur ix = false) :
    checkInteractions med meds ixs
      = [{ check_type := .DRUG_INTERACTION, status := .PASS, medication_name := med,
           details := "No drug interactions found" }] := by
  have hm : interactionMatches med meds ixs = [] := by
    rw [interactionMatches]
    rw [List.flatMap_eq_nil_iff]
    intro cur hcur
    have hf : ixs.filter (matchedPair med cur) = [] :=
      List.filter_eq_nil_iff.mpr (fun ix hix => by simp [h cur hcur ix hix])
    rw [hf]
    rfl
  rw [checkInteractions, hm]
  rfl

/-- C4: interaction matching is order-insensitive (same verdicts when
proposed and current drugs swap roles), a SEVERE record yields FAIL +
blocking and anything else a non-blocking WARNING, every matching record
contributes its own result, and with no match the check is exactly one PASS
result. -/
theorem interaction_symmetry_severity_and_pass :
    (∀ (x y dosage : String) (allergies : List String)
        (ixs : List DrugInteractionData) (drs : List DoseRangeData),
      (((evaluate (proposedOnCurrent x y dosage allergies ixs drs)).checks.filter
          (fun c => c.check_type == CheckType.DRUG_INTERACTION)).map verdict)
        = (((evaluate (proposedOnCurrent y x dosage allergies ixs drs)).checks.filter
            (fun c => c.check_type == CheckType.DRUG_INTERACTION)).map verdict))
    ∧ (∀ (med cur : String) (ix : DrugInteractionData),
        pyUpper ix.severity.data = "SEVERE".data →
        (interactionResult med cur ix).status = CheckStatus.FAIL ∧
        (interactionResult med cur ix).blocking = true)
    ∧ (∀ (med cur : String) (ix : DrugInteractionData),
        pyUpper ix.severity.data ≠ "SEVERE".data →
        (interactionResult med cur ix).status = CheckStatus.WARNING ∧
        (interactionResult med cur ix).blocking = false)
    ∧ (∀ (med : String) (meds : List String) (ixs : List DrugInteractionData)
        (cur : String) (ix : DrugInteractionData),
        cur ∈ meds → ix ∈ ixs → matchedPair med cur ix = true →
        interactionResult med cur ix ∈ checkInteractions med meds ixs)
    ∧ (∀ (med : String) (meds : List String) (ixs : List DrugInteractionData),
        (∀ cur ∈ meds, ∀ ix ∈ ixs, matchedPair med cur ix = false) →
        checkInteractions med meds ixs
          = [{ check_type := .DRUG_INTERACTION, status := .PASS,
               medication_name := med,
               details := "No drug interactions found" }]) := by
  refine ⟨?_, ?_, ?_, ?_, ?_⟩
  · intro x y dosage allergies ixs drs
    rw [evaluate_filter_interactions, evaluate_filter_interactions]
    exact checkInteractions_swap x y ixs
  · exact fun med cur ix h => (interactionResult_severity med cur ix).1 h
  · exact fun med cur ix h => (interactionResult_severity med cur ix).2 h
  · exact interactionResult_mem_checkInteractions
  · exact checkInteractions_no_match

/-- Witness for C4: the SEVERE Warfarin/Aspirin record blocks Aspirin
proposed on Warfarin, and with no matching record the check passes. -/
theorem interaction_symmetry_severity_and_pass_witness :
    ((interactionResult "Aspirin" "Warfarin" ixWarfarinAspirin).status
        = CheckStatus.FAIL
      ∧ (interactionResult "Aspirin" "Warfarin" ixWarfarinAspirin).blocking = true)
    ∧ interactionResult "Aspirin" "Warfarin" ixWarfarinAspirin
        ∈ checkInteractions "Aspirin" ["Warfarin"] [ixWarfarinAspirin]
    ∧ checkInteractions "Metformin" ["Lisinopril"] [ixWarfarinAspirin]
        = [{ check_type := .DRUG_INTERACTION, status := .PASS,
             medication_name := "Metformin",
             details := "No drug interactions found" }] := by
  refine ⟨?_, ?_, ?_⟩
  · exact interaction_symmetry_severity_and_pass.2.1 "Aspirin" "Warfarin"
      ixWarfarinAspirin (by decide)
  · exact interaction_symmetry_severity_and_pass.2.2.2.1 "Aspirin" ["Warfarin"]
      [ixWarfarinAspirin] "Warfarin" ixWarfarinAspirin (by decide) (by decide) (by decide)
  · exact interaction_symmetry_severity_and_pass.2.2.2.2 "Metformin" ["Lisinopril"]
      [ixWarfarinAspirin] (by decide)

/-! ## Claim C5 -/

theorem searchDose_500mg : searchDose "500mg".data = some (['5', '0', '0'], [], "mg") := by
  decide

theorem searchDose_halfg : searchDose "0.5g".data = some (['0'], ['5'], "g") := by
  decide

theorem searchDose_250mcg :
    searchDose "250 mcg".data = some (['2', '5', '0'], [], "mcg") := by
  decide

theorem searchDose_two_tablets : searchDose "two tablets".data = none := by
  decide

/-- C5: dose strings parse as a leading number with a unit converted to mg
(`500mg` → 500, `0.5g` → 500, `250 mcg` → 0.25, `two tablets` → unparseable),
and the dose-range check maps an unparseable dose to a non-blocking WARNING,
a missing reference to PASS, a dose above the maximum to a blocking FAIL,
one below the minimum to a non-blocking WARNING, and one within range to
PASS. -/
theorem dose_parse_and_range_check :
    parseDoseToMg "500mg" = some 500
    ∧ parseDoseToMg "0.5g" = some 500
    ∧ parseDoseToMg "250 mcg" = some (1 / 4)
    ∧ parseDoseToMg "two tablets" = none
    ∧ (∀ (med dosage : String) (ranges : List DoseRangeData),
        parseDoseToMg dosage = none →
        (checkDoseRange med dosage ranges).status = CheckStatus.WARNING
        ∧ (checkDoseRange med dosage ranges).blocking = false)
    ∧ (∀ (med dosage : String) (ranges : List DoseRangeData) (d : ℚ),
        parseDoseToMg dosage = some d →
        ranges.find? (fun dr => norm dr.medication_name == norm med) = none →
        (checkDoseRange med dosage ranges).status = CheckStatus.PASS
        ∧ (checkDoseRange med dosage ranges).blocking = false)
    ∧ (∀ (med dosage : String) (ranges : List DoseRangeData) (d : ℚ)
        (dr : DoseRangeData),
        parseDoseToMg dosage = some d →
        ranges.find? (fun r => norm r.medication_name == norm med) = some dr →
        d > dr.max_dose_mg →
        (checkDoseRange med dosage ranges).status = CheckStatus.FAIL
        ∧ (checkDoseRange med dosage ranges).blocking = true)
    ∧ (∀ (med dosage : String) (ranges : List DoseRangeData) (d : ℚ)
        (dr : DoseRangeData),
        parseDoseToMg dosage = some d →
        ranges.find? (fun r => norm r.medication_name == norm med) = some dr →
        ¬ d > dr.max_dose_mg → d < dr.min_dose_mg →
        (checkDoseRange med dosage ranges).status = CheckStatus.WARNING
        ∧ (checkDoseRange med dosage ranges).blocking = false)
    ∧ (∀ (med dosage : String) (ranges : List DoseRangeData) (d : ℚ)
        (dr : DoseRangeData),
        parseDoseToMg dosage = some d →
        ranges.find? (fun r => norm r.medication_name == norm med) = some dr →
        ¬ d > dr.max_dose_mg → ¬ d < dr.min_dose_mg →
        (checkDoseRange med dosage ranges).status = CheckStatus.PASS
        ∧ (checkDoseRange med dosage ranges).blocking = false) := by
  refine ⟨?_, ?_, ?_, ?_, ?_, ?_, ?_, ?_, ?_⟩
  · rw [parseDoseToMg, searchDose_500mg, Option.map_some']
    have hd : digitsVal ['5', '0', '0'] = 500 := by decide
    have hd0 : digitsVal ([] : List Char) = 0 := rfl
    rw [ratOfDigits, hd, hd0]
    norm_num [unitToMg]
  · rw [parseDoseToMg, searchDose_halfg, Option.map_some']
    have hd : digitsVal ['0'] = 0 := by decide
    have hd5 : digitsVal ['5'] = 5 := by decide
    rw [ratOfDigits, hd, hd5]
    norm_num [unitToMg]
  · rw [parseDoseToMg, searchDose_250mcg, Option.map_some']
    have hd : digitsVal ['2', '5', '0'] = 250 := by decide
    have hd0 : digitsVal ([] : List Char) = 0 := rfl
    rw [ratOfDigits, hd, hd0]
    norm_num [unitToMg]
  · rw [parseDoseToMg, searchDose_two_tablets]
    rfl
  · intro med dosage ranges hp
    simp only [checkDoseRange, hp]
    exact ⟨by trivial, by trivial⟩
  · intro med dosage ranges d hp hf
    simp only [checkDoseRange, hp, hf]
    exact ⟨by trivial, by trivial⟩
  · intro med dosage ranges d dr hp hf hgt
    simp only [checkDoseRange, hp, hf]
    rw [if_pos hgt]
    exact ⟨rfl, rfl⟩
  · intro med dosage ranges d dr hp hf hgt hlt
    simp only [checkDoseRange, hp, hf]
    rw [if_neg hgt, if_pos hlt]
    exact ⟨rfl, rfl⟩
  · intro med dosage ranges d dr hp hf hgt hlt
    simp only [checkDoseRange, hp, hf]
    rw [if_neg hgt, if_neg hlt]
    exact ⟨rfl, rfl⟩

/-- Witness for C5: each branch of the dose-range check exercised on
concrete inputs through the theorem. -/
theorem dose_parse_and_range_check_witness :
    ((checkDoseRange "Ibuprofen" "two tablets" []).status = CheckStatus.WARNING
      ∧ (checkDoseRange "Ibuprofen" "two tablets" []).blocking = false)
    ∧ (checkDoseRange "Ibuprofen" "500mg" []).status = CheckStatus.PASS
    ∧ ((checkDoseRange "Ibuprofen" "500mg" [drIbuprofenLow]).status = CheckStatus.FAIL
      ∧ (checkDoseRange "Ibuprofen" "500mg" [drIbuprofenLow]).blocking = true)
    ∧ ((checkDoseRange "Ibuprofen" "500mg" [drIbuprofenHigh]).status
        = CheckStatus.WARNING
      ∧ (checkDoseRange "Ibuprofen" "500mg" [drIbuprofenHigh]).blocking = false)
    ∧ (checkDoseRange "Ibuprofen" "500mg" [drIbuprofenMid]).status
        = CheckStatus.PASS := by
  obtain ⟨h500, _, _, htab, hnone, hnoref, hmax, hmin, hmid⟩ :=
    dose_parse_and_range_check
  refine ⟨?_, ?_, ?_, ?_, ?_⟩
  · exact hnone "Ibuprofen" "two tablets" [] htab
  · exact (hnoref "Ibuprofen" "500mg" [] 500 h500 rfl).1
  · exact hmax "Ibuprofen" "500mg" [drIbuprofenLow] 500 drIbuprofenLow h500 rfl
      (by norm_num [drIbuprofenLow])
  · exact hmin "Ibuprofen" "500mg" [drIbuprofenHigh] 500 drIbuprofenHigh h500 rfl
      (by norm_num [drIbuprofenHigh]) (by norm_num [drIbuprofenHigh])
  · exact (hmid "Ibuprofen" "500mg" [drIbuprofenMid] 500 drIbuprofenMid h500 rfl
      (by norm_num [drIbuprofenMid]) (by norm_num [drIbuprofenMid])).1

/-! ## Claim C6 -/

/-- C6: `lookup_coverage` takes the first formulary row matching the
(case-insensitive, trimmed) drug name or — when a generic name is supplied —
generic name; no match gives UNKNOWN, a non-covered match gives NOT_COVERED
with the copay omitted, a covered match needing prior auth gives
PRIOR_AUTH_REQUIRED with the copay retained, and a covered match without
prior auth gives COVERED with its tier and copay. -/
theorem lookup_coverage_cases (medication_name generic_name plan_name : String)
    (formulary : List FormularyEntryData) :
    (formulary.find? (formularyRowMatches (norm medication_name) (norm generic_name))
        = none →
      (lookupCoverage medication_name formulary generic_name plan_name).status
        = CoverageStatus.UNKNOWN)
    ∧ (∀ e, formulary.find?
          (formularyRowMatches (norm medication_name) (norm generic_name)) = some e →
        e.is_covered = false →
        (lookupCoverage medication_name formulary generic_name plan_name).status
            = CoverageStatus.NOT_COVERED
        ∧ (lookupCoverage medication_name formulary generic_name plan_name).copay
            = none)
    ∧ (∀ e, formulary.find?
          (formularyRowMatches (norm medication_name) (norm generic_name)) = some e →
        e.is_covered = true → e.requires_prior_auth = true →
        (lookupCoverage medication_name formulary generic_name plan_name).status
            = CoverageStatus.PRIOR_AUTH_REQUIRED
        ∧ (lookupCoverage medication_name formulary generic_name plan_name).copay
            = some e.copay)
    ∧ (∀ e, formulary.find?
          (formularyRowMatches (norm medication_name) (norm generic_name)) = some e →
        e.is_covered = true → e.requires_prior_auth = false →
        (lookupCoverage medication_name formulary generic_name plan_name).status
            = CoverageStatus.COVERED
        ∧ (lookupCoverage medication_name formulary generic_name plan_name).tier
            = some e.tier
        ∧ (lookupCoverage medication_name formulary generic_name plan_name).copay
            = some e.copay) := by
  refine ⟨?_, ?_, ?_, ?_⟩
  · intro hf
    simp only [lookupCoverage, hf]
  · intro e hf hcov
    simp only [lookupCoverage, hf, hcov]
    exact ⟨by trivial, by trivial⟩
  · intro e hf hcov hpa
    simp only [lookupCoverage, hf, hcov, hpa]
    exact ⟨by trivial, by trivial⟩
  · intro e hf hcov hpa
    simp only [lookupCoverage, hf, hcov, hpa]
    exact ⟨by trivial, by trivial, by trivial⟩

/-- Witness for C6: all four coverage outcomes on concrete rows through the
theorem. -/
theorem lookup_coverage_cases_witness :
    (lookupCoverage "Ozempic" [] "" "Acme Basic").status = CoverageStatus.UNKNOWN
    ∧ ((lookupCoverage "BrandX" [entryBrandX] "" "").status = CoverageStatus.NOT_COVERED
      ∧ (lookupCoverage "BrandX" [entryBrandX] "" "").copay = none)
    ∧ ((lookupCoverage "Humira" [entryHumira] "" "").status
        = CoverageStatus.PRIOR_AUTH_REQUIRED
      ∧ (lookupCoverage "Humira" [entryHumira] "" "").copay = some 150)
    ∧ ((lookupCoverage "metformin" [entryMetformin] "" "").status
        = CoverageStatus.COVERED
      ∧ (lookupCoverage "metformin" [entryMetformin] "" "").tier = some 1
      ∧ (lookupCoverage "metformin" [entryMetformin] "" "").copay = some 5) := by
  refine ⟨?_, ?_, ?_, ?_⟩
  · exact (lookup_coverage_cases "Ozempic" "" "Acme Basic" []).1 rfl
  · exact (lookup_coverage_cases "BrandX" "" "" [entryBrandX]).2.1 entryBrandX rfl rfl
  · have h := (lookup_coverage_cases "Humira" "" "" [entryHumira]).2.2.1
      entryHumira rfl rfl rfl
    exact ⟨h.1, h.2⟩
  · have h := (lookup_coverage_cases "metformin" "" "" [entryMetformin]).2.2.2
      entryMetformin rfl rfl rfl
    exact ⟨h.1, h.2.1, h.2.2⟩

/-! ## Claim C1 -/

/-- C1: a stored prescription carrying any blocking per-item flag can never
be approved: with `confirmed_safety_review = true` the call raises
`SafetyBlockError`, and for every request the call errors, the store is left
unchanged and the stored record (in particular its status) is untouched. -/
theorem blocked_prescription_never_approved
    (store : PrescriptionStore) (request : PrescriptionApprovalRequest)
    (patient_name clinician_name : String) (clinician_id : Nat)
    (plan_name member_id now : String) (fresh_receipt_id : Nat)
    (rx : PrescriptionRecord)
    (hget : getPrescription store request.prescription_id = some rx)
    (hblock : rx.rules_results.any (·.blocked) = true) :
    (request.confirmed_safety_review = true →
      isSafetyBlockError (approvePrescription store request patient_name
        clinician_name clinician_id plan_name member_id now fresh_receipt_id).1)
    ∧ (approvePrescription store request patient_name clinician_name
        clinician_id plan_name member_id now fresh_receipt_id).2 = store
    ∧ (∀ receipt, (approvePrescription store request patient_name clinician_name
        clinician_id plan_name member_id now fresh_receipt_id).1
          ≠ Except.ok receipt) := by
  by_cases hc : request.confirmed_safety_review = true
  · rcases hfind : rx.items.find? (fun item => !item.warnings.isEmpty) with _ | item
    · refine ⟨fun _ => ?_, ?_, fun receipt => ?_⟩ <;>
        simp [approvePrescription, hc, hget, hblock, hfind, isSafetyBlockError]
    · refine ⟨fun _ => ?_, ?_, fun receipt => ?_⟩ <;>
        simp [approvePrescription, hc, hget, hblock, hfind, isSafetyBlockError]
  · rw [Bool.not_eq_true] at hc
    refine ⟨fun h => absurd h (by simp [hc]), ?_, fun receipt => ?_⟩ <;>
      simp [approvePrescription, hc]

/-- Witness for C1: approving a blocked prescription with the safety review
confirmed raises `SafetyBlockError` and leaves the store untouched. -/
theorem blocked_prescription_never_approved_witness :
    isSafetyBlockError (approvePrescription blockedStore approveBlockedReq
      "Patient" "Clinician" 0 "" "" "t1" 99).1
    ∧ (approvePrescription blockedStore approveBlockedReq "Patient"
        "Clinician" 0 "" "" "t1" 99).2 = blockedStore := by
  obtain ⟨h1, h2, _⟩ := blocked_prescription_never_approved blockedStore
    approveBlockedReq "Patient" "Clinician" 0 "" "" "t1" 99 blockedRx rfl rfl
  exact ⟨h1 rfl, h2⟩

/-! ## Claim C7 -/

/-- C7: with `confirmed_safety_review` false the very first check of
`approve_prescription` fires, before the prescription is even looked up.
The code intends to raise `ValidationError`, but the constructor call passes
the unexpected keyword `operation` to `ValidationError.__init__`, so the
call actually raises `TypeError`; either way the store is unchanged. -/
theorem approve_without_confirmation_raises_type_error
    (store : PrescriptionStore) (rx_id : Nat) (comment : Option String)
    (patient_name clinician_name : String) (clinician_id : Nat)
    (plan_name member_id now : String) (fresh_receipt_id : Nat) :
    approvePrescription store ⟨rx_id, false, comment⟩ patient_name clinician_name
        clinician_id plan_name member_id now fresh_receipt_id
      = (Except.error (PharmaError.typeError
          "ValidationError.__init__() got an unexpected keyword argument: operation"),
        store) := rfl

/-! ## Claim C9 -/

theorem lookup_upsert {α : Type} (l : List (Nat × α)) (k : Nat) (v : α) :
    (upsert l k v).lookup k = some v := by
  induction l with
  | nil => simp [upsert, List.lookup]
  | cons p t ih =>
    rcases p with ⟨a, b⟩
    by_cases hk : a = k
    · subst hk
      rw [upsert, if_pos (by simp [List.any_cons]), List.map_cons,
        if_pos (show ((a, b).1 == a) = true by simp)]
      simp [List.lookup]
    · have hk3 : (k == a) = false := by simp [Ne.symm hk]
      by_cases ht : t.any (fun q => q.1 == k) = true
      · rw [upsert, if_pos (by simp [List.any_cons, ht]), List.map_cons,
          if_neg (show ¬ ((a, b).1 == k) = true by simp [hk])]
        have ih2 := ih
        rw [upsert, if_pos ht] at ih2
        simpa [List.lookup, hk3] using ih2
      · rw [upsert, if_neg (by simp [List.any_cons, hk, ht]), List.cons_append]
        have ih2 := ih
        rw [upsert, if_neg ht] at ih2
        simpa [List.lookup, hk3] using ih2

/-- Counterexample to C9: rejecting an already-approved (terminal)
prescription does not fail with `ValidationError` — it succeeds and changes
the stored status to `rejected`. -/
theorem terminal_reject_succeeds_counterexample :
    (rejectPrescription terminalStore ⟨42, "changed plan"⟩).1 = Except.ok ()
    ∧ getPrescription (rejectPrescription terminalStore ⟨42, "changed plan"⟩).2 42
        = some (rejectedCopy terminalRx "changed plan") := ⟨rfl, rfl⟩

/-- C9 as amended: neither transition guards on the current status.
Rejection succeeds for every stored prescription (terminal or not) and
re-transitions it to `rejected`; approval succeeds for every stored
prescription whose items carry no blocking flag whenever the safety review
is confirmed, re-transitioning it to `approved`.  The only approval guards
are the confirmation, existence, and the blocking flags. -/
theorem terminal_transitions_not_guarded
    (store : PrescriptionStore) (rx_id : Nat) (reason : String)
    (rx : PrescriptionRecord)
    (hget : getPrescription store rx_id = some rx) :
    ((rejectPrescription store ⟨rx_id, reason⟩).1 = Except.ok ()
      ∧ getPrescription (rejectPrescription store ⟨rx_id, reason⟩).2 rx_id
          = some (rejectedCopy rx reason))
    ∧ (∀ (comment : Option String) (patient_name clinician_name : String)
        (clinician_id : Nat) (plan_name member_id now : String)
        (fresh_receipt_id : Nat),
        rx.rules_results.any (·.blocked) = false →
        (∃ receipt, (approvePrescription store ⟨rx_id, true, comment⟩ patient_name
            clinician_name clinician_id plan_name member_id now fresh_receipt_id).1
          = Except.ok receipt)
        ∧ getPrescription (approvePrescription store ⟨rx_id, true, comment⟩
            patient_name clinician_name clinician_id plan_name member_id now
            fresh_receipt_id).2 rx_id
          = some (approvedCopy rx now)) := by
  constructor
  · constructor
    · simp [rejectPrescription, hget]
    · simp only [rejectPrescription, hget, rejectedCopy]
      exact lookup_upsert _ _ _
  · intro comment patient_name clinician_name clinician_id plan_name member_id
      now fresh_receipt_id hnb
    constructor
    · exact ⟨buildReceipt rx_id (approvedCopy rx now) patient_name clinician_name
        rx.patient_id clinician_id rx.visit_id plan_name member_id
        fresh_receipt_id now,
        by simp [approvePrescription, hget, hnb, approvedCopy]⟩
    · simp only [approvePrescription, hget, hnb, Bool.false_eq_true, if_false,
        approvedCopy]
      exact lookup_upsert _ _ _

/-- Witness for C9 (amended): the terminal, already-approved prescription is
re-approved without any error and its record is overwritten. -/
theorem terminal_transitions_not_guarded_witness :
    (∃ receipt, (approvePrescription terminalStore ⟨42, true, none⟩ "Patient"
        "Clinician" 0 "" "" "t2" 5).1 = Except.ok receipt)
    ∧ getPrescription (approvePrescription terminalStore ⟨42, true, none⟩
        "Patient" "Clinician" 0 "" "" "t2" 5).2 42
      = some (approvedCopy terminalRx "t2") := by
  obtain ⟨_, happ⟩ := terminal_transitions_not_guarded terminalStore 42 "r"
    terminalRx rfl
  exact happ none "Patient" "Clinician" 0 "" "" "t2" 5 rfl

/-! ## Claim C10 -/

/-- C10: `approve_prescription` is atomic on failure — every raising path
(missing confirmation, missing prescription, blocking safety flag) returns
before any mutation, so the store (prescriptions and receipts alike) is
exactly the input store: the status is kept, no timestamp is stamped and no
receipt is written. -/
theorem approve_error_leaves_store_unchanged
    (store : PrescriptionStore) (request : PrescriptionApprovalRequest)
    (patient_name clinician_name : String) (clinician_id : Nat)
    (plan_name member_id now : String) (fresh_receipt_id : Nat)
    (e : PharmaError)
    (herr : (approvePrescription store request patient_name clinician_name
        clinician_id plan_name member_id now fresh_receipt_id).1
      = Except.error e) :
    (approvePrescription store request patient_name clinician_name clinician_id
        plan_name member_id now fresh_receipt_id).2 = store := by
  by_cases hc : request.confirmed_safety_review = true
  · rcases hget : getPrescription store request.prescription_id with _ | rx
    · simp [approvePrescription, hc, hget]
    · by_cases hb : rx.rules_results.any (·.blocked) = true
      · rcases hfind : rx.items.find? (fun item => !item.warnings.isEmpty) with _ | item
        · simp [approvePrescription, hc, hget, hb, hfind]
        · simp [approvePrescription, hc, hget, hb, hfind]
      · rw [Bool.not_eq_true] at hb
        simp [approvePrescription, hc, hget, hb] at herr
  · rw [Bool.not_eq_true] at hc
    simp [approvePrescription, hc]

/-- Witness for C10: approving an absent prescription raises and leaves the
empty store untouched. -/
theorem approve_error_leaves_store_unchanged_witness :
    (approvePrescription { prescriptions := [], receipts := [] } ⟨5, true, none⟩
        "Patient" "Clinician" 0 "" "" "t1" 1).2
      = ({ prescriptions := [], receipts := [] } : PrescriptionStore) :=
  approve_error_leaves_store_unchanged { prescriptions := [], receipts := [] }
    ⟨5, true, none⟩ "Patient" "Clinician" 0 "" "" "t1" 1
    (PharmaError.resourceNotFoundError "Prescription" (some (toString 5))) rfl

/-! ## Claim C8 -/

/-- C8: an empty candidate list is flagged by the Gemini output validation
(raising — because of the broken three-argument `ValidationError` call — a
`TypeError` rather than the intended `ValidationError`); a failed AI call
propagates out of `generate_recommendations` before anything is evaluated or
persisted, leaving the store unchanged; outputs that pass validation are
never empty; and on success the response holds exactly one annotated item
per AI candidate — nothing is substituted. -/
theorem empty_or_failed_ai_hard_failure :
    (∀ (reasoning operation : String),
      validateRecommendationOutput
          { recommendations := [], clinical_reasoning := reasoning } operation
        = Except.error (PharmaError.typeError
            "ValidationError.__init__() takes from 2 to 3 positional arguments but 4 were given"))
    ∧ (∀ (store : PrescriptionStore) (request : RecommendationRequest)
        (formulary : List FormularyEntryData) (ixs : List DrugInteractionData)
        (drs : List DoseRangeData) (plan : String) (e : PharmaError)
        (fresh_rx_id : Nat) (now model : String),
        generateRecommendations store request formulary ixs drs plan
            (Except.error e) fresh_rx_id now model
          = (Except.error e, store))
    ∧ (∀ (output : GeminiRecommendationOutput) (operation : String),
        validateRecommendationOutput output operation = Except.ok () →
        output.recommendations ≠ [])
    ∧ (∀ (store : PrescriptionStore) (request : RecommendationRequest)
        (formulary : List FormularyEntryData) (ixs : List DrugInteractionData)
        (drs : List DoseRangeData) (plan : String)
        (output : GeminiRecommendationOutput)
        (fresh_rx_id : Nat) (now model : String),
        ∃ resp, (generateRecommendations store request formulary ixs drs plan
            (Except.ok output) fresh_rx_id now model).1 = Except.ok resp
          ∧ resp.recommendations.length = output.recommendations.length) := by
  refine ⟨fun reasoning operation => rfl, fun _ _ _ _ _ _ _ _ _ _ => rfl, ?_, ?_⟩
  · intro output operation hok hnil
    rw [validateRecommendationOutput] at hok
    rw [if_pos (by simp [hnil])] at hok
    cases hok
  · intro store request formulary ixs drs plan output fresh_rx_id now model
    refine ⟨_, rfl, ?_⟩
    show ((output.recommendations.map _).map _).length = output.recommendations.length
    simp

/-- Witness for C8: a validated output has a non-empty candidate list. -/
theorem empty_or_failed_ai_hard_failure_witness :
    validateRecommendationOutput geminiOneCandidate "generate_recommendations"
        = Except.ok ()
    ∧ geminiOneCandidate.recommendations ≠ [] :=
  ⟨rfl, empty_or_failed_ai_hard_failure.2.2.1 geminiOneCandidate
    "generate_recommendations" rfl⟩

end PharmaSense
